import Mathlib

/-!
Verification development for the BlueFly subscription/paywall subsystem.

The definitions below are a shallow embedding of the TypeScript sources:
  - `src/lib/iap/amazon.ts`          (AmazonIAPService: purchase lifecycle)
  - `src/lib/iap/receiptValidation.ts` (receipt validation fallback chain)
  - `src/lib/iap/IAPContext.tsx`     (context-level purchase wrapper)
  - `PaywallState` module            (paywall dismiss-count gating)

Conventions of the embedding:
  - JavaScript timestamps (`Date` values, epoch milliseconds) are `Int`.
  - `undefined` / absent optional fields are `Option`.
  - JavaScript truthiness of strings (`s || d`, empty string is falsy) is
    modelled by `jsOrStr`; `x || d` on an optional boolean by `jsOrBool`.
  - The MMKV key-value store is a total function from keys to optional
    typed values.
-/

namespace BlueFly

/-- JS `x || d` where `x : string | undefined`: the empty string and
`undefined` are falsy, so they yield the default. -/
def jsOrStr (x : Option String) (d : String) : String :=
  match x with
  | some s => if s = "" then d else s
  | none => d

/-- JS `x || d` where `x : boolean | undefined`: `false` and `undefined`
are falsy, so they yield the default. -/
def jsOrBool (x : Option Bool) (d : Bool) : Bool :=
  match x with
  | some true => true
  | _ => d

/-- Whether `pat` is an initial segment of `hay`. -/
def listStartsWith : List Char → List Char → Bool
  | _, [] => true
  | [], _ :: _ => false
  | h :: t, p :: ps => h = p && listStartsWith t ps

/-- Whether `pat` occurs contiguously inside `hay`. -/
def listHasSublist : List Char → List Char → Bool
  | [], pat => pat.isEmpty
  | h :: t, pat => listStartsWith (h :: t) pat || listHasSublist t pat

/-- JS `hay.includes(pat)` for strings (substring test). -/
def strIncludes (hay pat : String) : Bool :=
  listHasSublist hay.toList pat.toList

/-- JS `x?.toLowerCase().includes(pat)` coerced to boolean:
`undefined` is falsy. -/
def optMsgIncludes (x : Option String) (pat : String) : Bool :=
  match x with
  | some s => strIncludes s.toLower pat
  | none => false

-- =============================================================================
-- Data model (amazon.ts)
-- =============================================================================

/-- `SubscriptionTier` from amazon.ts. -/
inductive SubscriptionTier
  | free
  | monthly
  | quarterly
deriving DecidableEq, Repr

/-- `SubscriptionStatus` from amazon.ts; `expirationDate` is epoch ms. -/
structure SubscriptionStatus where
  isSubscribed : Bool
  tier : SubscriptionTier
  expirationDate : Option Int
  isTrialPeriod : Bool
  autoRenewing : Bool
  receiptId : Option String := none
deriving DecidableEq, Repr

/-- `PurchaseResult` from amazon.ts. -/
structure PurchaseResult where
  success : Bool
  error : Option String := none
  receiptId : Option String := none
  isTrialPeriod : Option Bool := none
deriving DecidableEq, Repr

/-- `PurchaseData` delivered by the native purchaseUpdated event
(AmazonIAPNative.ts); only the fields the service reads are kept. -/
structure PurchaseData where
  productId : String
  transactionId : String
  purchaseToken : Option String
deriving DecidableEq, Repr

/-- `ErrorData` delivered by the native purchaseError event. -/
structure ErrorData where
  code : Option String
  message : Option String
deriving DecidableEq, Repr

/-- `SubscriptionProduct` from amazon.ts (catalog entry). -/
structure SubscriptionProduct where
  productId : String
  title : String
  description : String
  price : String
  currency : String
  localizedPrice : String
  subscriptionPeriod : String
  freeTrialPeriod : Option String := none
deriving DecidableEq, Repr

/-- `SUBSCRIPTION_SKUS.MONTHLY`. -/
def monthlySku : String := "BlueFlyMonthlyTerm"

/-- `SUBSCRIPTION_SKUS.QUARTERLY`. -/
def quarterlySku : String := "BlueFlyQuarterlyTerm"

/-- `getTierFromProductId` from amazon.ts: known SKUs map to their tier,
anything else maps to `free`. -/
def getTierFromProductId (productId : String) : SubscriptionTier :=
  if productId = monthlySku then .monthly
  else if productId = quarterlySku then .quarterly
  else .free

/-- The initial `currentSubscription` value of AmazonIAPService. -/
def initialSubscription : SubscriptionStatus :=
  { isSubscribed := false
    tier := .free
    expirationDate := none
    isTrialPeriod := false
    autoRenewing := false }

/-- The `free` status written by checkSubscriptionStatus when no confirmable
purchase is found (error path and 5-second timeout path). -/
def freeSubscription : SubscriptionStatus := initialSubscription

-- =============================================================================
-- Paywall state (PaywallState module): MMKV-backed dismiss gating
-- =============================================================================

/-- A value stored in the MMKV paywall store. -/
inductive StoreValue
  | num (n : Nat)
  | boolean (b : Bool)
deriving DecidableEq, Repr

/-- The MMKV paywall store: a mapping from key to optional typed value.
`KEYS = {DISMISS_COUNT: 'dismissCount', LAST_SHOWN: 'lastShown',
IS_SUBSCRIBED: 'isSubscribed'}`. -/
def PaywallStore := String → Option StoreValue

/-- `paywallStorage.getNumber(k)`: a number if one is stored, else undefined. -/
def getNumber (s : PaywallStore) (k : String) : Option Nat :=
  match s k with
  | some (.num n) => some n
  | _ => none

/-- `paywallStorage.getBoolean(k)`. -/
def getBoolean (s : PaywallStore) (k : String) : Option Bool :=
  match s k with
  | some (.boolean b) => some b
  | _ => none

/-- `paywallStorage.set(k, v)`. -/
def storeSet (s : PaywallStore) (k : String) (v : StoreValue) : PaywallStore :=
  fun x => if x = k then some v else s x

/-- `paywallStorage.delete(k)`. -/
def storeDelete (s : PaywallStore) (k : String) : PaywallStore :=
  fun x => if x = k then none else s x

/-- `getDismissCount()`: `paywallStorage.getNumber(DISMISS_COUNT) ?? 0`. -/
def getDismissCount (s : PaywallStore) : Nat :=
  (getNumber s "dismissCount").getD 0

/-- `incrementDismissCount()`: reads the current count, stores count + 1. -/
def incrementDismissCount (s : PaywallStore) : PaywallStore :=
  storeSet s "dismissCount" (.num (getDismissCount s + 1))

/-- `canDismissPaywall()`: true while the dismiss count is below 2. -/
def canDismissPaywall (s : PaywallStore) : Bool :=
  getDismissCount s < 2

/-- `setLastShownTime()` at time `t` (epoch ms as Nat). -/
def setLastShownTime (s : PaywallStore) (t : Nat) : PaywallStore :=
  storeSet s "lastShown" (.num t)

/-- `isUserSubscribed()`: `getBoolean(IS_SUBSCRIBED) ?? false`. -/
def isUserSubscribed (s : PaywallStore) : Bool :=
  (getBoolean s "isSubscribed").getD false

/-- `setSubscriptionStatus(subscribed)`. -/
def setSubscriptionStatus (s : PaywallStore) (b : Bool) : PaywallStore :=
  storeSet s "isSubscribed" (.boolean b)

/-- `resetPaywallState()`: deletes the DISMISS_COUNT and LAST_SHOWN keys. -/
def resetPaywallState (s : PaywallStore) : PaywallStore :=
  storeDelete (storeDelete s "dismissCount") "lastShown"

/-- The operations the PaywallState module exposes that write the store. -/
inductive PaywallOp
  | dismiss
  | reset
  | setLastShown (t : Nat)
  | setSubscribed (b : Bool)
deriving DecidableEq, Repr

/-- Apply one PaywallState write operation to the store. -/
def applyPaywallOp (s : PaywallStore) (op : PaywallOp) : PaywallStore :=
  match op with
  | .dismiss => incrementDismissCount s
  | .reset => resetPaywallState s
  | .setLastShown t => setLastShownTime s t
  | .setSubscribed b => setSubscriptionStatus s b

/-- Apply a sequence of PaywallState write operations, oldest first. -/
def runPaywallOps (s : PaywallStore) (ops : List PaywallOp) : PaywallStore :=
  ops.foldl applyPaywallOp s

/-- The empty paywall store (fresh install). -/
def emptyPaywallStore : PaywallStore := fun _ => none

-- =============================================================================
-- Purchase attempt promise machinery (amazon.ts, purchaseSubscription)
-- =============================================================================

/-- The per-attempt promise state inside `purchaseSubscription`:
the `purchaseResolved` flag, the value the promise settled with (`none`
while pending), the one-shot callback slots, the 90-second timeout, the
polling interval with its attempt counter, and the `pendingPurchase`
tracking record (productId of the record, or `none`). -/
structure AttemptState where
  productId : String
  purchaseResolved : Bool
  result : Option PurchaseResult
  hasSuccessCallback : Bool
  hasErrorCallback : Bool
  timeoutActive : Bool
  pollingActive : Bool
  pollingAttempts : Nat
  pendingPurchase : Option String
deriving DecidableEq, Repr

/-- `clearPurchaseCallbacks` from purchaseSubscription: clears both callback
slots, the timeout, the polling interval, and the pendingPurchase record
when its productId matches this attempt. -/
def clearPurchaseCallbacks (s : AttemptState) : AttemptState :=
  { s with
    hasSuccessCallback := false
    hasErrorCallback := false
    timeoutActive := false
    pollingActive := false
    pendingPurchase :=
      if s.pendingPurchase = some s.productId then none else s.pendingPurchase }

/-- The completion sources that can fire for a pending purchase attempt:
the purchase-success event (carrying the `currentSubscription.isTrialPeriod`
read at resolution time), the purchase-error event, one polling tick
(carrying the status `checkSubscriptionStatus` returned), the 90-second hard
timeout, and rejection of the `requestSubscription` call itself. -/
inductive AttemptEvent
  | successEvent (currentIsTrial : Bool) (p : PurchaseData)
  | errorEvent (e : ErrorData)
  | pollTick (status : SubscriptionStatus)
  | hardTimeout
  | requestFailed (msg : Option String)
deriving DecidableEq, Repr

/-- The user-cancellation test in the onPurchaseError callback
(`E_USER_CANCELLED` / `USER_CANCELED` codes, or a message containing
"cancel"). -/
def isCancelledError (e : ErrorData) : Bool :=
  e.code = some "E_USER_CANCELLED" ||
  e.code = some "USER_CANCELED" ||
  (e.code = some "PURCHASE_FAILED" && optMsgIncludes e.message "cancel") ||
  optMsgIncludes e.message "cancel" ||
  optMsgIncludes e.message "cancelled"

/-- Settle the attempt promise with `r`: set `purchaseResolved`, run
`clearPurchaseCallbacks`, and record the resolution value. -/
def resolveAttempt (s : AttemptState) (r : PurchaseResult) : AttemptState :=
  { clearPurchaseCallbacks s with purchaseResolved := true, result := some r }

/-- One firing of a completion source against the attempt state.  Every
branch mirrors its handler in purchaseSubscription, including the
`if (purchaseResolved) return` guard at the top of each handler. -/
def stepAttempt (s : AttemptState) (e : AttemptEvent) : AttemptState :=
  match e with
  | .successEvent currentIsTrial p =>
    if s.purchaseResolved then s
    else
      resolveAttempt s
        { success := true
          receiptId := p.purchaseToken
          isTrialPeriod := some currentIsTrial }
  | .errorEvent err =>
    if s.purchaseResolved then s
    else
      resolveAttempt s
        { success := false
          error := some
            (if isCancelledError err then "Purchase cancelled"
             else jsOrStr err.message
               "Purchase could not be completed. Please try again.") }
  | .pollTick status =>
    if s.purchaseResolved then s
    else
      let s1 := { s with pollingAttempts := s.pollingAttempts + 1 }
      let s2 :=
        if status.isSubscribed && status.receiptId.isSome then
          resolveAttempt s1
            { success := true
              receiptId := status.receiptId
              isTrialPeriod := some status.isTrialPeriod }
        else s1
      if 12 ≤ s2.pollingAttempts then { s2 with pollingActive := false } else s2
  | .hardTimeout =>
    if s.purchaseResolved then s
    else
      resolveAttempt s
        { success := false
          error := some
            "Purchase timed out. The purchase dialog may have been closed. Please try again." }
  | .requestFailed msg =>
    if s.purchaseResolved then s
    else
      resolveAttempt s
        { success := false
          error := some (jsOrStr msg
            "Failed to initiate purchase. Please check your connection and try again.") }

/-- Fire a sequence of completion sources, oldest first. -/
def runAttempt (s : AttemptState) (es : List AttemptEvent) : AttemptState :=
  es.foldl stepAttempt s

/-- Whether a firing of this completion source settles a still-pending
attempt: success, error, timeout and request-failure always do; a polling
tick does exactly when it found a subscribed status with a receipt. -/
def eventResolves : AttemptEvent → Bool
  | .pollTick status => status.isSubscribed && status.receiptId.isSome
  | _ => true

/-- The attempt state right after the synchronous prefix of
`purchaseSubscription` (callbacks installed, timeout armed, pendingPurchase
recorded, polling not yet started, promise pending). -/
def freshAttempt (productId : String) : AttemptState :=
  { productId := productId
    purchaseResolved := false
    result := none
    hasSuccessCallback := true
    hasErrorCallback := true
    timeoutActive := true
    pollingActive := false
    pollingAttempts := 0
    pendingPurchase := some productId }

-- =============================================================================
-- Optimistic status update (amazon.ts, purchaseUpdated listener)
-- =============================================================================

/-- `ReceiptValidationResult` from receiptValidation.ts; date fields are
epoch milliseconds. -/
structure ReceiptValidationResult where
  isValid : Bool
  receiptId : Option String := none
  productId : Option String := none
  purchaseDate : Option Int := none
  expirationDate : Option Int := none
  cancelDate : Option Int := none
  isTrialPeriod : Option Bool := none
  autoRenewing : Option Bool := none
  renewalDate : Option Int := none
  error : Option String := none
deriving DecidableEq, Repr

/-- The optimistic `currentSubscription` written by the purchaseUpdated
listener before validation runs: subscribed, tier from the productId,
no expiration yet, not trial, auto-renewing, receipt from the event. -/
def optimisticStatusUpdate (p : PurchaseData) : SubscriptionStatus :=
  { isSubscribed := true
    tier := getTierFromProductId p.productId
    expirationDate := none
    isTrialPeriod := false
    autoRenewing := true
    receiptId := p.purchaseToken }

/-- The synchronous part of the purchaseUpdated listener: it replaces
`currentSubscription` with the optimistic status and only then starts the
background `validateAmazonReceipt(purchase.purchaseToken || '',
purchase.productId)` call, returned here as the request arguments. -/
def purchaseUpdatedListener (p : PurchaseData) :
    SubscriptionStatus × (String × String) :=
  (optimisticStatusUpdate p, (jsOrStr p.purchaseToken "", p.productId))

/-- How the background validation settles the status: on a valid result the
status is replaced with the validated data (tier captured from the purchase
event); on an invalid result or a thrown error the handler only logs and
the status is left as it was. -/
def applyBackgroundValidation (cur : SubscriptionStatus)
    (tier : SubscriptionTier) (p : PurchaseData)
    (outcome : Except String ReceiptValidationResult) : SubscriptionStatus :=
  match outcome with
  | .ok v =>
    if v.isValid then
      { isSubscribed := true
        tier := tier
        expirationDate := v.expirationDate
        isTrialPeriod := jsOrBool v.isTrialPeriod false
        autoRenewing := jsOrBool v.autoRenewing true
        receiptId := p.purchaseToken }
    else cur
  | .error _ => cur

-- =============================================================================
-- Engine status transitions (amazon.ts): every currentSubscription write
-- =============================================================================

/-- The status written by the temporary purchaseUpdated listener inside
`checkSubscriptionStatus` once the server validation settles: validated
data on success, the `free` default on failure. -/
def statusCheckValidated (p : PurchaseData) (v : ReceiptValidationResult) :
    SubscriptionStatus :=
  if v.isValid then
    { isSubscribed := true
      tier := getTierFromProductId p.productId
      expirationDate := v.expirationDate
      isTrialPeriod := jsOrBool v.isTrialPeriod false
      autoRenewing := jsOrBool v.autoRenewing true
      receiptId := p.purchaseToken }
  else freeSubscription

/-- Every event in amazon.ts that replaces `currentSubscription`:
the optimistic purchaseUpdated listener, the settlement of its background
validation, a purchase observed (and validated) by the temporary listener
of `checkSubscriptionStatus`, the rejection of `getAvailablePurchases`
inside it, and its 5-second timeout. -/
inductive StatusEvent
  | purchaseUpdated (p : PurchaseData)
  | backgroundValidation (p : PurchaseData)
      (outcome : Except String ReceiptValidationResult)
  | statusCheckPurchase (p : PurchaseData) (v : ReceiptValidationResult)
  | statusCheckFailed
  | statusCheckTimeout

/-- Apply one status-writing event to the held status. -/
def statusStep (cur : SubscriptionStatus) (e : StatusEvent) :
    SubscriptionStatus :=
  match e with
  | .purchaseUpdated p => optimisticStatusUpdate p
  | .backgroundValidation p outcome =>
    applyBackgroundValidation cur (getTierFromProductId p.productId) p outcome
  | .statusCheckPurchase p v => statusCheckValidated p v
  | .statusCheckFailed => freeSubscription
  | .statusCheckTimeout => freeSubscription

/-- The §3 invariant: the tier is `free` exactly when not subscribed. -/
def tierInvariant (s : SubscriptionStatus) : Prop :=
  s.tier = .free ↔ s.isSubscribed = false

/-- A purchase event carries one of the two catalog SKUs. -/
def knownSku (productId : String) : Prop :=
  productId = monthlySku ∨ productId = quarterlySku

/-- A status event is well formed when any purchase data it carries names a
known subscription SKU. -/
def statusEventKnownSkus : StatusEvent → Prop
  | .purchaseUpdated p => knownSku p.productId
  | .backgroundValidation p _ => knownSku p.productId
  | .statusCheckPurchase p _ => knownSku p.productId
  | .statusCheckFailed => True
  | .statusCheckTimeout => True

-- =============================================================================
-- purchaseSubscription entry (amazon.ts): concurrent-call behavior
-- =============================================================================

/-- The in-memory pendingPurchase tracking record; `attemptId` identifies
the resolver callback belonging to one `purchaseSubscription` call. -/
structure PendingPurchase where
  productId : String
  attemptId : Nat
  pollingAttempts : Nat
deriving DecidableEq, Repr

/-- The service fields `purchaseSubscription` reads and writes on entry:
the `initialized` flag, the loaded catalog, the shared one-shot callback
slots (tagged by the attempt that installed them), the two permanent
listener subscriptions, and the single pendingPurchase slot. -/
structure EngineState where
  initialized : Bool
  products : List SubscriptionProduct
  onPurchaseSuccess : Option Nat
  onPurchaseError : Option Nat
  hasUpdateListener : Bool
  hasErrorListener : Bool
  pendingPurchase : Option PendingPurchase
deriving DecidableEq, Repr

/-- `clearPurchaseCallbacks` as it acts on the shared service fields:
both callback slots are cleared, and the pendingPurchase record is cleared
when its productId matches the clearing attempt's productId. -/
def clearEngineCallbacks (st : EngineState) (productId : String) :
    EngineState :=
  { st with
    onPurchaseSuccess := none
    onPurchaseError := none
    pendingPurchase :=
      if st.pendingPurchase.map PendingPurchase.productId = some productId
      then none else st.pendingPurchase }

/-- The synchronous prefix of `purchaseSubscription(productId)` for the
attempt `attemptId`: the initialized guard, the catalog guard, installation
of the one-shot callbacks, the listener sanity check, and the assignment of
the pendingPurchase record.  Returns the new service state and
`some result` when the call fails before sending the purchase request
(`none` means the request is sent and the promise stays pending).  The
source checks nothing about an existing pendingPurchase. -/
def purchaseStart (st : EngineState) (productId : String) (attemptId : Nat) :
    EngineState × Option PurchaseResult :=
  if st.initialized = false then
    (st, some { success := false
                error := some "IAP not initialized. Please try again." })
  else if (st.products.find? (fun p => p.productId = productId)).isNone then
    (st, some { success := false
                error := some "Product not available. Please try again later." })
  else
    let st1 := { st with
      onPurchaseSuccess := some attemptId
      onPurchaseError := some attemptId }
    if st1.hasUpdateListener = false || st1.hasErrorListener = false then
      (clearEngineCallbacks st1 productId,
       some { success := false
              error := some "Purchase system not ready. Please try again." })
    else
      ({ st1 with
         pendingPurchase := some
           { productId := productId, attemptId := attemptId
             pollingAttempts := 0 } },
       none)

-- =============================================================================
-- Product catalog loading (amazon.ts): pending promise and listeners
-- =============================================================================

/-- `ProductData` delivered by the native productsLoaded event
(AmazonIAPNative.ts). -/
structure ProductData where
  productId : String
  title : String
  description : String
  price : String
  currencyCode : String
deriving DecidableEq, Repr

/-- Digit list to natural number. -/
def digitsToNat (cs : List Char) : Nat :=
  cs.foldl (fun a c => a * 10 + (c.toNat - 48)) 0

/-- JS `parseFloat` on a decimal string, modelled exactly over the
rationals: optional leading spaces and sign, then digits with an optional
fractional part; trailing garbage is ignored; `none` stands for NaN.
(Exponent forms never occur in store price strings.) -/
def jsParseFloatQ (s : String) : Option ℚ :=
  let cs := s.toList.dropWhile (fun c => c = ' ')
  let signNeg := cs.head? = some '-'
  let cs1 := if cs.head? = some '-' || cs.head? = some '+' then cs.tail else cs
  let intPart := cs1.takeWhile Char.isDigit
  let rest := cs1.dropWhile Char.isDigit
  let fracPart :=
    match rest with
    | '.' :: r => r.takeWhile Char.isDigit
    | _ => []
  if intPart.isEmpty && fracPart.isEmpty then none
  else
    let v : ℚ :=
      (digitsToNat intPart : ℚ) +
        (digitsToNat fracPart : ℚ) / ((10 : ℚ) ^ fracPart.length)
    some (if signNeg then -v else v)

/-- JS `toFixed(2)` for a positive price (round to cents), modelled over
the rationals. -/
def toFixedTwo (q : ℚ) : String :=
  let cents : Nat := (Int.floor (q * 100 + 1 / 2)).toNat
  let whole := cents / 100
  let rem := cents % 100
  toString whole ++ "." ++
    (if rem < 10 then "0" ++ toString rem else toString rem)

/-- The hardcoded fallback price for a SKU used when the store price string
is malformed. -/
def fallbackPrice (productId : String) : String :=
  if productId = monthlySku then "2.99"
  else if productId = quarterlySku then "6.99"
  else "0.00"

/-- `mapNativeProductToSubscriptionProduct` from amazon.ts: period and
trial from the SKU, price validated (`parseFloat` finite, over 0, under
1000) with a hardcoded fallback, currency symbol for USD/EUR/GBP, and
defaults for empty title/description. -/
def mapNativeProduct (product : ProductData) : SubscriptionProduct :=
  let subscriptionPeriod :=
    if product.productId = quarterlySku then "Quarterly" else "Monthly"
  let rawPrice0 := if product.price = "" then "0.00" else product.price
  let rawPrice :=
    match jsParseFloatQ rawPrice0 with
    | some q =>
      if 0 < q && q < 1000 then toFixedTwo q else fallbackPrice product.productId
    | none => fallbackPrice product.productId
  let currencySymbol :=
    if product.currencyCode = "USD" then "$"
    else if product.currencyCode = "EUR" then "€"
    else if product.currencyCode = "GBP" then "£"
    else "$"
  { productId := product.productId
    title := if product.title = "" then product.productId else product.title
    description :=
      if product.description = "" then subscriptionPeriod ++ " subscription"
      else product.description
    price := rawPrice
    currency := if product.currencyCode = "" then "USD" else product.currencyCode
    localizedPrice := currencySymbol ++ rawPrice
    subscriptionPeriod := subscriptionPeriod
    freeTrialPeriod := some "7-day free trial" }

/-- Settlement of one `loadProducts` promise. -/
inductive LoadOutcome
  | resolved (products : List SubscriptionProduct)
  | rejected (msg : String)
deriving DecidableEq, Repr

/-- The service state relevant to catalog loading: the initialized flag,
which of the three event listeners are registered, the pending
products-load promise (tagged by the call that created it) with its
settlement, and the cached catalog. -/
structure CatalogState where
  initialized : Bool
  hasUpdateListener : Bool
  hasErrorListener : Bool
  hasProductsLoadedListener : Bool
  pendingProductsLoad : Option Nat
  loadOutcome : Option LoadOutcome
  products : List SubscriptionProduct
deriving DecidableEq, Repr

/-- `setupPurchaseListeners` from amazon.ts: removes all three listener
subscriptions, then registers the purchaseUpdated and purchaseError
listeners.  The productsLoaded listener is NOT registered here: in the
source its registration block sits inside `checkForPendingPurchase`. -/
def setupPurchaseListeners (s : CatalogState) : CatalogState :=
  { s with
    hasUpdateListener := true
    hasErrorListener := true
    hasProductsLoadedListener := false }

/-- `checkForPendingPurchase` from amazon.ts as far as listeners go: it
returns early unless a pendingPurchase exists and the service is
initialized; otherwise (after triggering `getAvailablePurchases`) it
registers the productsLoaded listener — the only registration site of that
listener in the source. -/
def checkForPendingPurchase (s : CatalogState) (hasPendingPurchase : Bool) :
    CatalogState :=
  if !hasPendingPurchase || !s.initialized then s
  else { s with hasProductsLoadedListener := true }

/-- The synchronous prefix of `loadProducts()` for call `callId`: when not
initialized it returns the empty list at once; otherwise it records the
pending promise and issues `getSubscriptions` (the result is supposed to
arrive via the productsLoaded event). -/
def loadProductsStart (s : CatalogState) (callId : Nat) :
    CatalogState × Option (List SubscriptionProduct) :=
  if s.initialized = false then (s, some [])
  else ({ s with pendingProductsLoad := some callId, loadOutcome := none }, none)

/-- Delivery of a native productsLoaded event: when the productsLoaded
listener is registered, its handler maps the native products, caches them,
and resolves the pending load promise if one exists; with no listener
registered the event is dropped. -/
def productsLoadedDispatch (s : CatalogState) (datas : List ProductData) :
    CatalogState :=
  if s.hasProductsLoadedListener then
    let mapped := datas.map mapNativeProduct
    { s with
      products := mapped
      pendingProductsLoad := none
      loadOutcome :=
        if s.pendingProductsLoad.isSome then some (.resolved mapped)
        else s.loadOutcome }
  else s

/-- The 10-second timeout armed by `loadProducts`: if the pending promise
is still unresolved it is rejected with the timeout error. -/
def loadProductsTimeout (s : CatalogState) : CatalogState :=
  if s.pendingProductsLoad.isSome then
    { s with
      pendingProductsLoad := none
      loadOutcome := some (.rejected "Product load timed out") }
  else s

/-- Rejection of the `getSubscriptions` native call: the pending promise is
rejected with the error. -/
def loadProductsRequestFailed (s : CatalogState) (msg : String) :
    CatalogState :=
  if s.pendingProductsLoad.isSome then
    { s with
      pendingProductsLoad := none
      loadOutcome := some (.rejected msg) }
  else s

/-- The listener state as it stands in `init()` right after
`setupPurchaseListeners` ran and the service marked itself initialized
(the point at which init calls `loadProducts`). -/
def initListenerState : CatalogState :=
  setupPurchaseListeners
    { initialized := true
      hasUpdateListener := false
      hasErrorListener := false
      hasProductsLoadedListener := false
      pendingProductsLoad := none
      loadOutcome := none
      products := [] }

-- =============================================================================
-- Receipt validation (receiptValidation.ts)
-- =============================================================================

/-- The configuration receiptValidation.ts imports from config:
`IAP_VALIDATION_URL`, `AMAZON_DEVELOPER_ID`, `AMAZON_SHARED_SECRET`,
plus the build flag `__DEV__` (and `USE_SANDBOX = __DEV__`). -/
structure ValidationConfig where
  validationUrl : String
  developerId : String
  sharedSecret : String
  isDev : Bool
deriving DecidableEq, Repr

/-- `IAP_VALIDATION_URL && !IAP_VALIDATION_URL.includes('YOUR-PROJECT-ID')`
coerced to boolean. -/
def hasValidUrl (cfg : ValidationConfig) : Bool :=
  cfg.validationUrl ≠ "" && !(strIncludes cfg.validationUrl "YOUR-PROJECT-ID")

/-- One HTTP interaction as the code observes it: a 2xx response with a
parsed body, a non-2xx status, or a thrown network error. -/
inductive HttpOutcome (α : Type)
  | ok (body : α)
  | httpError (status : Nat)
  | netError (msg : String)
deriving DecidableEq, Repr

/-- The parsed JSON body of a 2xx backend validation response. -/
structure BackendResponseBody where
  isValid : Bool
  receiptId : Option String := none
  productId : Option String := none
  purchaseDate : Option Int := none
  expirationDate : Option Int := none
  isTrialPeriod : Option Bool := none
  autoRenewing : Option Bool := none
  renewalDate : Option Int := none
  error : Option String := none
deriving DecidableEq, Repr

/-- `validateWithBackend`: passes a 2xx body through; a non-2xx response
yields the `Validation server error: N` failure; a thrown fetch error
yields the `Failed to connect to validation server` failure. -/
def validateWithBackend (outcome : HttpOutcome BackendResponseBody) :
    ReceiptValidationResult :=
  match outcome with
  | .ok r =>
    { isValid := r.isValid
      receiptId := r.receiptId
      productId := r.productId
      purchaseDate := r.purchaseDate
      expirationDate := r.expirationDate
      isTrialPeriod := r.isTrialPeriod
      autoRenewing := r.autoRenewing
      renewalDate := r.renewalDate
      error := r.error }
  | .httpError status =>
    { isValid := false
      error := some ("Validation server error: " ++ toString status) }
  | .netError msg =>
    { isValid := false
      error := some ("Failed to connect to validation server: " ++ msg) }

/-- The parsed JSON body of a 2xx Amazon RVS response. -/
structure RVSResponseBody where
  receiptId : String
  productType : String
  productId : String
  purchaseDate : Int
  cancelDate : Option Int := none
  renewalDate : Option Int := none
  freeTrialPeriod : Option String := none
deriving DecidableEq, Repr

/-- JS truthiness of an optional number: `undefined` and `0` are falsy. -/
def jsTruthyNum (x : Option Int) : Bool :=
  match x with
  | some n => n ≠ 0
  | none => false

/-- JS `Boolean(x)` for an optional string: `undefined` and the empty
string are falsy. -/
def jsTruthyStr (x : Option String) : Bool :=
  match x with
  | some s => s ≠ ""
  | none => false

/-- The 30-day dev-mode optimistic validation result returned when no RVS
credentials are configured in a development build (`now` is epoch ms). -/
def devOptimisticResult (receiptId productId : String) (now : Int) :
    ReceiptValidationResult :=
  { isValid := true
    receiptId := some receiptId
    productId := some productId
    purchaseDate := some now
    expirationDate := some (now + 30 * 24 * 60 * 60 * 1000)
    isTrialPeriod := some true
    autoRenewing := some true }

/-- `validateWithAmazonRVS`: with either credential missing it issues no
request and returns the dev-optimistic success in development builds and
the unavailable failure in production builds; otherwise it issues the RVS
request and maps the outcome (status codes 400/496/497/500 to their
messages, cancelled receipts to a failure, valid bodies to a success).
The boolean reports whether a vendor request was issued. -/
def validateWithAmazonRVS (cfg : ValidationConfig)
    (receiptId productId : String) (now : Int)
    (outcome : HttpOutcome RVSResponseBody) :
    ReceiptValidationResult × Bool :=
  if cfg.sharedSecret = "" || cfg.developerId = "" then
    (if cfg.isDev then devOptimisticResult receiptId productId now
     else
       { isValid := false
         error := some "Validation service unavailable. Please try again." },
     false)
  else
    (match outcome with
     | .httpError status =>
       if status = 400 then
         { isValid := false, error := some "Invalid receipt format" }
       else if status = 496 then
         { isValid := false
           error := some "Subscription cancelled or expired" }
       else if status = 497 then
         { isValid := false
           error := some "Invalid receipt - purchase not found" }
       else if status = 500 then
         { isValid := false
           error := some "Amazon server error - please try again" }
       else
         { isValid := false
           error := some ("Amazon RVS error: " ++ toString status) }
     | .netError msg =>
       { isValid := false
         error := some ("Validation request failed: " ++ msg) }
     | .ok data =>
       if jsTruthyNum data.cancelDate then
         { isValid := false
           cancelDate := data.cancelDate
           error := some "Subscription has been cancelled" }
       else
         { isValid := true
           receiptId := some data.receiptId
           productId := some data.productId
           purchaseDate := some data.purchaseDate
           expirationDate :=
             if jsTruthyNum data.renewalDate then data.renewalDate else none
           isTrialPeriod := some (jsTruthyStr data.freeTrialPeriod)
           autoRenewing := some (!(jsTruthyNum data.cancelDate))
           renewalDate :=
             if jsTruthyNum data.renewalDate then data.renewalDate else none },
     true)

/-- Which remote validation requests a call issued, in order. -/
inductive RequestKind
  | backend
  | vendorRVS
deriving DecidableEq, Repr

/-- `validateAmazonReceipt(receiptId, productId)`: an empty receiptId is
rejected at once with no request; with a configured backend URL the
backend is tried first and its result returned unless it is an invalid
result whose error mentions the server (which triggers the RVS fallback);
without a configured URL the RVS path is used directly.  The second
component lists the requests issued, in order. -/
def validateAmazonReceipt (cfg : ValidationConfig)
    (receiptId productId : String) (now : Int)
    (backendOutcome : HttpOutcome BackendResponseBody)
    (rvsOutcome : HttpOutcome RVSResponseBody) :
    ReceiptValidationResult × List RequestKind :=
  if receiptId = "" then
    ({ isValid := false, error := some "No receipt ID provided" }, [])
  else if hasValidUrl cfg then
    let r := validateWithBackend backendOutcome
    if r.isValid ||
        !(match r.error with
          | some e => strIncludes e "server"
          | none => false) then
      (r, [.backend])
    else
      let rv := validateWithAmazonRVS cfg receiptId productId now rvsOutcome
      (rv.1, .backend :: (if rv.2 then [.vendorRVS] else []))
  else
    let rv := validateWithAmazonRVS cfg receiptId productId now rvsOutcome
    (rv.1, if rv.2 then [.vendorRVS] else [])

-- =============================================================================
-- Context-level purchase wrapper (IAPContext.tsx, purchaseSubscription)
-- =============================================================================

/-- The state the IAPContext purchase wrapper consults: the context's own
isInitialized flag, the service's initialized flag, and the service's
loaded catalog. -/
structure CtxState where
  ctxInitialized : Bool
  svcInitialized : Bool
  products : List SubscriptionProduct
deriving DecidableEq, Repr

/-- Outcome of the guard phase of a context-level purchase: either an
immediate failure with the error set, or the native purchase request is
initiated. -/
inductive CtxOutcome
  | failed (msg : String)
  | requestInitiated
deriving DecidableEq, Repr

/-- The guard phase of `IAPContext.purchaseSubscription(productId)`
composed with the entry guards of `amazonIAP.purchaseSubscription`:
context and service initialized checks, the one lazy `loadProducts`
reload attempt when the catalog is empty (`reload` is how that promise
settles), and the service's catalog-membership check.  Returns the outcome
and how many reload attempts were made. -/
def contextPurchaseGuard (st : CtxState) (productId : String)
    (reload : Except String (List SubscriptionProduct)) :
    CtxOutcome × Nat :=
  if st.ctxInitialized = false then
    (.failed "IAP not initialized. Please wait for initialization to complete.",
     0)
  else if st.svcInitialized = false then
    (.failed
      "IAP service not initialized. Please wait for initialization to complete.",
     0)
  else if st.products.isEmpty then
    match reload with
    | .error _ =>
      (.failed "Failed to load products. Please check your connection and try again.",
       1)
    | .ok ps =>
      if ps.isEmpty then
        (.failed "Products not available. Please check your connection and try again.",
         1)
      else if (ps.find? (fun p => p.productId = productId)).isNone then
        (.failed "Product not available. Please try again later.", 1)
      else (.requestInitiated, 1)
  else if (st.products.find? (fun p => p.productId = productId)).isNone then
    (.failed "Product not available. Please try again later.", 0)
  else (.requestInitiated, 0)

-- =============================================================================
-- Sample data used by concrete evaluations
-- =============================================================================

/-- A catalog entry for the monthly SKU. -/
def sampleMonthlyProduct : SubscriptionProduct :=
  { productId := monthlySku
    title := "BlueFly Monthly"
    description := "Monthly subscription"
    price := "2.99"
    currency := "USD"
    localizedPrice := "$2.99"
    subscriptionPeriod := "Monthly"
    freeTrialPeriod := some "7-day free trial" }

/-- A service state with one purchase already pending (attempt 1 for the
monthly SKU) when a second `purchaseSubscription` call arrives. -/
def busyEngineState : EngineState :=
  { initialized := true
    products := [sampleMonthlyProduct]
    onPurchaseSuccess := some 1
    onPurchaseError := some 1
    hasUpdateListener := true
    hasErrorListener := true
    pendingPurchase := some
      { productId := monthlySku, attemptId := 1, pollingAttempts := 0 } }

/-- A native product record as the productsLoaded event delivers it. -/
def sampleNativeProduct : ProductData :=
  { productId := monthlySku
    title := "BlueFly Monthly"
    description := "Monthly subscription"
    price := "2.99"
    currencyCode := "USD" }

/-- A purchase event whose productId is not one of the two catalog SKUs. -/
def unknownSkuPurchase : PurchaseData :=
  { productId := "com.example.unknownSku"
    transactionId := "txn-1"
    purchaseToken := some "tok-1" }

/-- A purchase event for the monthly SKU. -/
def sampleMonthlyPurchase : PurchaseData :=
  { productId := monthlySku
    transactionId := "txn-9"
    purchaseToken := some "tok-9" }

/-- A background validation settles against the status without a valid
result: either the server answered with an invalid result, or the request
itself threw. -/
def validationFailed (outcome : Except String ReceiptValidationResult) :
    Prop :=
  match outcome with
  | .ok v => v.isValid = false
  | .error _ => True

/-- The backend validation call failed or was unreachable (non-2xx
response or thrown fetch error). -/
def backendCallFailed : HttpOutcome BackendResponseBody → Prop
  | .ok _ => False
  | .httpError _ => True
  | .netError _ => True

/-- An attempt already settled by its hard timeout. -/
def resolvedAttemptSample : AttemptState :=
  stepAttempt (freshAttempt monthlySku) .hardTimeout

/-- The catalog state after init set up listeners and `loadProducts` (call
1) recorded its pending promise and issued the product request. -/
def c5AfterLoadStart : CatalogState :=
  (loadProductsStart initListenerState 1).1

/-- …and after the native productsLoaded event then fired with the
monthly product. -/
def c5AfterEvent : CatalogState :=
  productsLoadedDispatch c5AfterLoadStart [sampleNativeProduct]

/-- A context state that is fully initialized with a loaded catalog. -/
def readyCtxState : CtxState :=
  { ctxInitialized := true
    svcInitialized := true
    products := [sampleMonthlyProduct] }

/-- A context state that is initialized but whose catalog is empty. -/
def emptyCatalogCtxState : CtxState :=
  { ctxInitialized := true
    svcInitialized := true
    products := [] }

/-- A validation config with a backend URL configured and no RVS
credentials, as shipped in config (production build). -/
def prodValidationConfig : ValidationConfig :=
  { validationUrl :=
      "https://us-central1-bluefly-firestore.cloudfunctions.net/validateAmazonReceipt"
    developerId := ""
    sharedSecret := ""
    isDev := false }

/-- A validation config with no backend URL and no RVS credentials
(development build). -/
def bareDevValidationConfig : ValidationConfig :=
  { validationUrl := ""
    developerId := ""
    sharedSecret := ""
    isDev := true }

/-- Same bare config in a production build. -/
def bareProdValidationConfig : ValidationConfig :=
  { validationUrl := ""
    developerId := ""
    sharedSecret := ""
    isDev := false }

-- =============================================================================
-- Helper lemmas
-- =============================================================================

lemma getDismissCount_storeSet_ne (s : PaywallStore) (k : String)
    (v : StoreValue) (h : k ≠ "dismissCount") :
    getDismissCount (storeSet s k v) = getDismissCount s := by
  simp only [getDismissCount, getNumber, storeSet]
  rw [if_neg (Ne.symm h)]

lemma getDismissCount_increment (s : PaywallStore) :
    getDismissCount (incrementDismissCount s) = getDismissCount s + 1 := by
  simp [incrementDismissCount, getDismissCount, getNumber, storeSet]

lemma dismissCount_mono_step (s : PaywallStore) (op : PaywallOp)
    (h : op ≠ .reset) :
    getDismissCount s ≤ getDismissCount (applyPaywallOp s op) := by
  cases op with
  | dismiss =>
    rw [show applyPaywallOp s .dismiss = incrementDismissCount s from rfl,
      getDismissCount_increment]
    exact Nat.le_succ _
  | reset => exact absurd rfl h
  | setLastShown t =>
    exact le_of_eq
      (getDismissCount_storeSet_ne s "lastShown" (.num t) (by decide)).symm
  | setSubscribed b =>
    exact le_of_eq
      (getDismissCount_storeSet_ne s "isSubscribed" (.boolean b) (by decide)).symm

-- =============================================================================
-- Claim theorems
-- =============================================================================

/-- C3: after any sequence of recorded dismissals and resets,
`canDismissPaywall` returns true exactly when the persisted dismiss count
is below 2, and the dismiss count never decreases under any operation
other than the explicit reset. -/
theorem dismiss_gating_matches_count (s : PaywallStore)
    (ops : List PaywallOp) :
    canDismissPaywall (runPaywallOps s ops) =
      decide (getDismissCount (runPaywallOps s ops) < 2)
  ∧ (PaywallOp.reset ∉ ops →
      getDismissCount s ≤ getDismissCount (runPaywallOps s ops)) := by
  constructor
  · rfl
  · induction ops generalizing s with
    | nil => intro _; exact le_rfl
    | cons op ops ih =>
      intro hmem
      have h1 : op ≠ PaywallOp.reset := by
        intro h
        exact hmem (h ▸ List.mem_cons_self _ _)
      have h2 : PaywallOp.reset ∉ ops := fun h =>
        hmem (List.mem_cons_of_mem _ h)
      exact le_trans (dismissCount_mono_step s op h1)
        (ih (applyPaywallOp s op) h2)

/-- Witness for C3 at a concrete store and operation sequence. -/
theorem dismiss_gating_matches_count_witness :
    (canDismissPaywall
        (runPaywallOps emptyPaywallStore [PaywallOp.dismiss, PaywallOp.dismiss]) =
      decide (getDismissCount
        (runPaywallOps emptyPaywallStore [PaywallOp.dismiss, PaywallOp.dismiss]) < 2))
  ∧ getDismissCount emptyPaywallStore ≤
      getDismissCount
        (runPaywallOps emptyPaywallStore [PaywallOp.dismiss, PaywallOp.dismiss]) :=
  ⟨(dismiss_gating_matches_count emptyPaywallStore _).1,
   (dismiss_gating_matches_count emptyPaywallStore
      [PaywallOp.dismiss, PaywallOp.dismiss]).2 (by decide)⟩

/-- C9: `resetPaywallState` deletes exactly the dismissCount and lastShown
keys; every other key of the store, in particular isSubscribed, keeps its
previous value. -/
theorem reset_preserves_subscription_key (s : PaywallStore) (k : String)
    (h1 : k ≠ "dismissCount") (h2 : k ≠ "lastShown") :
    resetPaywallState s "dismissCount" = none
  ∧ resetPaywallState s "lastShown" = none
  ∧ resetPaywallState s k = s k := by
  refine ⟨rfl, rfl, ?_⟩
  simp only [resetPaywallState, storeDelete]
  rw [if_neg h2, if_neg h1]

/-- Witness for C9: the isSubscribed entry survives a reset. -/
theorem reset_preserves_subscription_key_witness :
    resetPaywallState
        (storeSet emptyPaywallStore "isSubscribed" (.boolean true))
        "dismissCount" = none
  ∧ resetPaywallState
        (storeSet emptyPaywallStore "isSubscribed" (.boolean true))
        "lastShown" = none
  ∧ resetPaywallState
        (storeSet emptyPaywallStore "isSubscribed" (.boolean true))
        "isSubscribed" =
      storeSet emptyPaywallStore "isSubscribed" (.boolean true) "isSubscribed" :=
  reset_preserves_subscription_key _ "isSubscribed" (by decide) (by decide)

/-- C10: an empty receiptId makes `validateAmazonReceipt` return the
no-receipt failure immediately, with no backend and no vendor request
issued, for every productId, configuration and environment. -/
theorem empty_receipt_fails_without_requests (cfg : ValidationConfig)
    (productId : String) (now : Int)
    (backendOutcome : HttpOutcome BackendResponseBody)
    (rvsOutcome : HttpOutcome RVSResponseBody) :
    validateAmazonReceipt cfg "" productId now backendOutcome rvsOutcome =
      ({ isValid := false, error := some "No receipt ID provided" }, []) :=
  rfl

/-- C2: a purchase-completed event sets the subscription status with
isSubscribed true before validation runs (the listener writes the
optimistic status and only then starts the background validation); and a
failed or thrown background validation leaves that optimistic status
untouched. -/
theorem optimistic_status_not_reverted (p : PurchaseData)
    (outcome : Except String ReceiptValidationResult)
    (hfail : validationFailed outcome) :
    (purchaseUpdatedListener p).1.isSubscribed = true
  ∧ applyBackgroundValidation (purchaseUpdatedListener p).1
      (getTierFromProductId p.productId) p outcome =
    (purchaseUpdatedListener p).1 := by
  refine ⟨rfl, ?_⟩
  cases outcome with
  | error e => rfl
  | ok v =>
    have hv : v.isValid = false := hfail
    simp [applyBackgroundValidation, hv]

/-- Witness for C2 at a concrete purchase event and failed validation. -/
theorem optimistic_status_not_reverted_witness :
    (purchaseUpdatedListener sampleMonthlyPurchase).1.isSubscribed = true
  ∧ applyBackgroundValidation (purchaseUpdatedListener sampleMonthlyPurchase).1
      (getTierFromProductId sampleMonthlyPurchase.productId)
      sampleMonthlyPurchase
      (Except.ok { isValid := false, error := some "Invalid receipt format" }) =
    (purchaseUpdatedListener sampleMonthlyPurchase).1 :=
  optimistic_status_not_reverted sampleMonthlyPurchase
    (Except.ok { isValid := false, error := some "Invalid receipt format" }) rfl

lemma stepAttempt_of_resolved (s : AttemptState) (e : AttemptEvent)
    (h : s.purchaseResolved = true) : stepAttempt s e = s := by
  cases e <;> simp [stepAttempt, h]

/-- C1: every purchase attempt settles its promise exactly once.  Once any
completion source has resolved the attempt, any further firing of any
completion source (success event, error event, polling tick, hard timeout,
request failure) leaves the attempt state — the promise value included —
completely unchanged; and a still-pending attempt is settled by a firing
completion source exactly when that source actually completes (every
source but a polling tick that found nothing). -/
theorem purchase_promise_settles_once :
    (∀ (s : AttemptState) (es : List AttemptEvent),
      s.purchaseResolved = true → runAttempt s es = s)
  ∧ (∀ (s : AttemptState) (e : AttemptEvent),
      s.purchaseResolved = false →
      (stepAttempt s e).purchaseResolved = eventResolves e) := by
  constructor
  · intro s es h
    induction es with
    | nil => rfl
    | cons e es ih =>
      show runAttempt (stepAttempt s e) es = s
      rw [stepAttempt_of_resolved s e h]
      exact ih
  · intro s e h
    cases e with
    | successEvent t p => simp [stepAttempt, h, resolveAttempt, eventResolves]
    | errorEvent err => simp [stepAttempt, h, resolveAttempt, eventResolves]
    | hardTimeout => simp [stepAttempt, h, resolveAttempt, eventResolves]
    | requestFailed m => simp [stepAttempt, h, resolveAttempt, eventResolves]
    | pollTick status =>
      cases hb : (status.isSubscribed && status.receiptId.isSome) with
      | true =>
        simp [stepAttempt, h, hb, eventResolves, resolveAttempt,
          apply_ite AttemptState.purchaseResolved]
      | false =>
        simp [stepAttempt, h, hb, eventResolves,
          apply_ite AttemptState.purchaseResolved]

/-- Witness for C1: a timed-out attempt ignores a later success event, and
a fresh attempt is settled by its hard timeout. -/
theorem purchase_promise_settles_once_witness :
    runAttempt resolvedAttemptSample
        [AttemptEvent.successEvent false sampleMonthlyPurchase] =
      resolvedAttemptSample
  ∧ (stepAttempt (freshAttempt monthlySku) AttemptEvent.hardTimeout).purchaseResolved =
      eventResolves AttemptEvent.hardTimeout :=
  ⟨purchase_promise_settles_once.1 resolvedAttemptSample _ rfl,
   purchase_promise_settles_once.2 (freshAttempt monthlySku) _ rfl⟩

/-- C4 counterexample: with a purchase already pending (attempt 1, monthly
SKU), a second `purchaseSubscription` call for the same product does not
fail — no immediate error result is produced — and it overwrites both the
pendingPurchase tracking record and the success callback slot with its
own. -/
theorem second_purchase_not_rejected :
    (purchaseStart busyEngineState monthlySku 2).2 = none
  ∧ (purchaseStart busyEngineState monthlySku 2).1.pendingPurchase ≠
      busyEngineState.pendingPurchase
  ∧ (purchaseStart busyEngineState monthlySku 2).1.onPurchaseSuccess ≠
      busyEngineState.onPurchaseSuccess := by
  refine ⟨rfl, ?_, ?_⟩ <;> decide

/-- C4 (amended): a `purchaseSubscription` call made while a
PendingPurchase already exists is not rejected: provided the service is
initialized, the product is in the catalog and the listeners are
installed, the call proceeds (no immediate error result) and replaces the
pending purchase's tracking record and both one-shot callback slots with
its own. -/
theorem second_purchase_overwrites_pending (st : EngineState)
    (productId : String) (attemptId : Nat)
    (hinit : st.initialized = true)
    (hprod : (st.products.find? (fun p => p.productId = productId)).isSome)
    (hul : st.hasUpdateListener = true)
    (hel : st.hasErrorListener = true)
    (_hpending : st.pendingPurchase.isSome) :
    (purchaseStart st productId attemptId).2 = none
  ∧ (purchaseStart st productId attemptId).1.pendingPurchase =
      some { productId := productId, attemptId := attemptId
             pollingAttempts := 0 }
  ∧ (purchaseStart st productId attemptId).1.onPurchaseSuccess = some attemptId
  ∧ (purchaseStart st productId attemptId).1.onPurchaseError = some attemptId := by
  have hfind : (st.products.find? (fun p => p.productId = productId)).isNone = false := by
    rcases Option.isSome_iff_exists.mp hprod with ⟨p, hp⟩
    simp [hp]
  simp [purchaseStart, hinit, hfind, hul, hel]

/-- Witness for C4's amended claim at a concrete busy service state. -/
theorem second_purchase_overwrites_pending_witness :
    (purchaseStart busyEngineState monthlySku 2).2 = none
  ∧ (purchaseStart busyEngineState monthlySku 2).1.pendingPurchase =
      some { productId := monthlySku, attemptId := 2, pollingAttempts := 0 }
  ∧ (purchaseStart busyEngineState monthlySku 2).1.onPurchaseSuccess = some 2
  ∧ (purchaseStart busyEngineState monthlySku 2).1.onPurchaseError = some 2 :=
  second_purchase_overwrites_pending busyEngineState monthlySku 2
    rfl (by decide) rfl rfl rfl

/-- C5: evaluation at the failing flow.  After init set up its listeners
and `loadProducts` recorded its pending promise, the native productsLoaded
event is dropped (the productsLoaded listener was never registered — its
registration block sits inside `checkForPendingPurchase`, which does not
run during init or loadProducts): the pending promise stays pending, the
catalog stays empty, and the 10-second timeout then rejects the promise. -/
theorem products_loaded_event_lost :
    c5AfterEvent.pendingProductsLoad = some 1
  ∧ c5AfterEvent.products = []
  ∧ c5AfterEvent.loadOutcome = none
  ∧ (loadProductsTimeout c5AfterEvent).loadOutcome =
      some (.rejected "Product load timed out") := by
  refine ⟨rfl, rfl, rfl, rfl⟩

/-- C6 counterexample: a purchase-completed event carrying a productId
that is not one of the two catalog SKUs drives the engine into a status
with isSubscribed true and tier free, violating the tier/isSubscribed
invariant. -/
theorem tier_invariant_fails_unknown_sku :
    ¬ tierInvariant
        (statusStep initialSubscription
          (.purchaseUpdated unknownSkuPurchase)) := by
  simp only [tierInvariant]
  decide

/-- C6 (amended): tier equals free exactly when isSubscribed is false for
the initial status and is preserved by every status-writing transition of
the engine, provided every purchase event involved carries one of the two
known subscription SKUs (an unknown productId maps to tier free while
isSubscribed is set true, which is the violation the counterexample
exhibits). -/
theorem tier_invariant_with_known_skus :
    tierInvariant initialSubscription
  ∧ ∀ (cur : SubscriptionStatus) (e : StatusEvent),
      tierInvariant cur → statusEventKnownSkus e →
      tierInvariant (statusStep cur e) := by
  constructor
  · exact ⟨fun _ => rfl, fun _ => rfl⟩
  · intro cur e hinv hwf
    have hknown : ∀ pid, knownSku pid →
        getTierFromProductId pid ≠ SubscriptionTier.free := by
      intro pid hk
      rcases hk with h | h <;> subst h <;> decide
    cases e with
    | purchaseUpdated p =>
      have := hknown p.productId hwf
      exact ⟨fun h => absurd h this,
        fun h => by simp [statusStep, optimisticStatusUpdate] at h⟩
    | backgroundValidation p outcome =>
      cases outcome with
      | error msg => exact hinv
      | ok v =>
        by_cases hv : v.isValid = true
        · have := hknown p.productId hwf
          simp only [statusStep, applyBackgroundValidation, hv, if_true]
          exact ⟨fun h => absurd h this, fun h => by simp at h⟩
        · have hv2 : v.isValid = false := by
            cases hvv : v.isValid
            · rfl
            · exact absurd hvv hv
          simpa [statusStep, applyBackgroundValidation, hv2] using hinv
    | statusCheckPurchase p v =>
      by_cases hv : v.isValid = true
      · have := hknown p.productId hwf
        simp only [statusStep, statusCheckValidated, hv, if_true]
        exact ⟨fun h => absurd h this, fun h => by simp at h⟩
      · have hv2 : v.isValid = false := by
          cases hvv : v.isValid
          · rfl
          · exact absurd hvv hv
        simp only [statusStep, statusCheckValidated, hv2]
        exact ⟨fun _ => rfl, fun _ => rfl⟩
    | statusCheckFailed => exact ⟨fun _ => rfl, fun _ => rfl⟩
    | statusCheckTimeout => exact ⟨fun _ => rfl, fun _ => rfl⟩

/-- Witness for C6's amended claim: a monthly-SKU purchase event keeps the
invariant. -/
theorem tier_invariant_with_known_skus_witness :
    tierInvariant
      (statusStep initialSubscription
        (.purchaseUpdated sampleMonthlyPurchase)) :=
  tier_invariant_with_known_skus.2 initialSubscription
    (.purchaseUpdated sampleMonthlyPurchase)
    tier_invariant_with_known_skus.1 (Or.inl rfl)

lemma listStartsWith_append (xs b pat : List Char)
    (h : listStartsWith xs pat = true) :
    listStartsWith (xs ++ b) pat = true := by
  induction pat generalizing xs with
  | nil => simp [listStartsWith]
  | cons p ps ih =>
    cases xs with
    | nil => simp [listStartsWith] at h
    | cons x xt =>
      simp only [listStartsWith, Bool.and_eq_true] at h
      simp only [List.cons_append, listStartsWith, Bool.and_eq_true]
      exact ⟨h.1, ih xt h.2⟩

lemma listHasSublist_nil_pat (hay : List Char) :
    listHasSublist hay [] = true := by
  cases hay <;> simp [listHasSublist, listStartsWith, List.isEmpty]

lemma listHasSublist_append_left (a b pat : List Char)
    (h : listHasSublist a pat = true) :
    listHasSublist (a ++ b) pat = true := by
  induction a with
  | nil =>
    have hp : pat = [] := by
      cases pat with
      | nil => rfl
      | cons p ps => simp [listHasSublist, List.isEmpty] at h
    subst hp
    exact listHasSublist_nil_pat b
  | cons x xt ih =>
    simp only [listHasSublist, Bool.or_eq_true] at h
    simp only [List.cons_append, listHasSublist, Bool.or_eq_true]
    cases h with
    | inl h1 =>
      exact Or.inl (listStartsWith_append (x :: xt) b pat h1)
    | inr h2 => exact Or.inr (ih h2)

lemma strIncludes_append_left (a b pat : String)
    (h : strIncludes a pat = true) :
    strIncludes (a ++ b) pat = true := by
  simp only [strIncludes] at h ⊢
  have hd : (a ++ b).toList = a.toList ++ b.toList := by
    simp [String.toList]
  rw [hd]
  exact listHasSublist_append_left _ _ _ h

/-- C7: with a backend validation URL configured, `validateAmazonReceipt`
issues the backend request first, and when that request fails or is
unreachable (non-2xx status or network error) the result is the one the
direct Amazon RVS path produces; with neither a backend URL nor RVS
credentials configured, no request is issued and the result is the
optimistic success in development builds and a failure in production
builds. -/
theorem validation_fallback_chain (cfg : ValidationConfig)
    (rid pid : String) (now : Int)
    (bo : HttpOutcome BackendResponseBody)
    (ro : HttpOutcome RVSResponseBody) (hrid : rid ≠ "") :
    (hasValidUrl cfg = true →
        (validateAmazonReceipt cfg rid pid now bo ro).2.head? =
          some RequestKind.backend
      ∧ (backendCallFailed bo →
          (validateAmazonReceipt cfg rid pid now bo ro).1 =
            (validateWithAmazonRVS cfg rid pid now ro).1))
  ∧ (hasValidUrl cfg = false →
      cfg.sharedSecret = "" ∨ cfg.developerId = "" →
        (validateAmazonReceipt cfg rid pid now bo ro).1.isValid = cfg.isDev
      ∧ (validateAmazonReceipt cfg rid pid now bo ro).2 = []) := by
  constructor
  · intro hurl
    constructor
    · simp only [validateAmazonReceipt, if_neg hrid, hurl, if_true]
      split <;> rfl
    · intro hfail
      cases bo with
      | ok body => exact hfail.elim
      | httpError status =>
        have hs : strIncludes
            ("Validation server error: " ++ toString status) "server" = true :=
          strIncludes_append_left "Validation server error: " _ "server"
            (by decide)
        simp [validateAmazonReceipt, if_neg hrid, hurl, validateWithBackend, hs]
      | netError msg =>
        have hs : strIncludes
            ("Failed to connect to validation server: " ++ msg) "server" = true :=
          strIncludes_append_left "Failed to connect to validation server: " _
            "server" (by decide)
        simp [validateAmazonReceipt, if_neg hrid, hurl, validateWithBackend, hs]
  · intro hurl hcred
    have hc : (cfg.sharedSecret = "" || cfg.developerId = "") = true := by
      rcases hcred with h | h <;> simp [h]
    cases hdev : cfg.isDev <;>
      simp [validateAmazonReceipt, if_neg hrid, hurl, validateWithAmazonRVS,
        hc, hdev, devOptimisticResult]

/-- Witness for C7: a 503 from the backend falls back to the RVS path, and
a bare development config validates optimistically with no request. -/
theorem validation_fallback_chain_witness :
    ((validateAmazonReceipt prodValidationConfig "tok-1" "BlueFlyMonthlyTerm" 0
        (.httpError 503) (.netError "offline")).2.head? =
      some RequestKind.backend
    ∧ (validateAmazonReceipt prodValidationConfig "tok-1" "BlueFlyMonthlyTerm" 0
        (.httpError 503) (.netError "offline")).1 =
      (validateWithAmazonRVS prodValidationConfig "tok-1" "BlueFlyMonthlyTerm" 0
        (.netError "offline")).1)
  ∧ ((validateAmazonReceipt bareDevValidationConfig "tok-1" "BlueFlyMonthlyTerm"
        0 (.httpError 503) (.netError "offline")).1.isValid =
      bareDevValidationConfig.isDev
    ∧ (validateAmazonReceipt bareDevValidationConfig "tok-1" "BlueFlyMonthlyTerm"
        0 (.httpError 503) (.netError "offline")).2 = []) :=
  ⟨⟨((validation_fallback_chain prodValidationConfig "tok-1" "BlueFlyMonthlyTerm"
        0 (.httpError 503) (.netError "offline") (by decide)).1 (by decide)).1,
    ((validation_fallback_chain prodValidationConfig "tok-1" "BlueFlyMonthlyTerm"
        0 (.httpError 503) (.netError "offline") (by decide)).1 (by decide)).2
      trivial⟩,
   (validation_fallback_chain bareDevValidationConfig "tok-1"
      "BlueFlyMonthlyTerm" 0 (.httpError 503) (.netError "offline")
      (by decide)).2 rfl (Or.inl rfl)⟩

/-- C8: the context purchase flow requires the context and the service to
be initialized and the product to be in the loaded catalog; with a
nonempty catalog no reload happens (a missing product fails at once); with
an empty catalog exactly one lazy `loadProducts` reload is attempted, and
when the reload fails or still does not provide the product the purchase
fails with the corresponding not-available error. -/
theorem purchase_precondition_guards :
    (∀ (st : CtxState) (pid : String)
        (reload : Except String (List SubscriptionProduct)),
      st.ctxInitialized = false →
      contextPurchaseGuard st pid reload =
        (.failed "IAP not initialized. Please wait for initialization to complete.",
         0))
  ∧ (∀ (st : CtxState) (pid : String)
        (reload : Except String (List SubscriptionProduct)),
      st.ctxInitialized = true → st.svcInitialized = true →
      st.products ≠ [] →
        ((st.products.find? (fun p => p.productId = pid)).isNone →
          contextPurchaseGuard st pid reload =
            (.failed "Product not available. Please try again later.", 0))
      ∧ ((st.products.find? (fun p => p.productId = pid)).isSome →
          contextPurchaseGuard st pid reload = (.requestInitiated, 0)))
  ∧ (∀ (st : CtxState) (pid : String)
        (reload : Except String (List SubscriptionProduct)),
      st.ctxInitialized = true → st.svcInitialized = true →
      st.products = [] →
        (contextPurchaseGuard st pid reload).2 = 1
      ∧ (∀ msg, reload = .error msg →
          (contextPurchaseGuard st pid reload).1 =
            .failed "Failed to load products. Please check your connection and try again.")
      ∧ (∀ ps, reload = .ok ps →
          (ps.find? (fun p => p.productId = pid)).isNone →
          (contextPurchaseGuard st pid reload).1 =
            if ps.isEmpty then
              .failed "Products not available. Please check your connection and try again."
            else .failed "Product not available. Please try again later.")) := by
  refine ⟨?_, ?_, ?_⟩
  · intro st pid reload h
    simp [contextPurchaseGuard, h]
  · intro st pid reload h1 h2 hne
    have hempty : st.products.isEmpty = false := by
      cases hp : st.products with
      | nil => exact absurd hp hne
      | cons a l => rfl
    constructor
    · intro hfind
      simp [contextPurchaseGuard, h1, h2, hempty, hfind]
    · intro hfind
      have hf : (st.products.find? (fun p => p.productId = pid)).isNone = false := by
        rcases Option.isSome_iff_exists.mp hfind with ⟨p, hp⟩
        simp [hp]
      simp [contextPurchaseGuard, h1, h2, hempty, hf]
  · intro st pid reload h1 h2 hempty
    have he : st.products.isEmpty = true := by simp [hempty]
    refine ⟨?_, ?_, ?_⟩
    · cases reload with
      | error msg => simp [contextPurchaseGuard, h1, h2, he]
      | ok ps =>
        by_cases hp : ps.isEmpty = true
        · simp [contextPurchaseGuard, h1, h2, he, hp]
        · have hp2 : ps.isEmpty = false := by
            cases hpp : ps.isEmpty
            · rfl
            · exact absurd hpp hp
          by_cases hf : (ps.find? (fun p => p.productId = pid)).isNone = true
          · simp [contextPurchaseGuard, h1, h2, he, hp2, hf]
          · have hf2 : (ps.find? (fun p => p.productId = pid)).isNone = false := by
              cases hff : (ps.find? (fun p => p.productId = pid)).isNone
              · rfl
              · exact absurd hff hf
            simp [contextPurchaseGuard, h1, h2, he, hp2, hf2]
    · intro msg hmsg
      subst hmsg
      simp [contextPurchaseGuard, h1, h2, he]
    · intro ps hps hfind
      subst hps
      by_cases hp : ps.isEmpty = true
      · simp [contextPurchaseGuard, h1, h2, he, hp]
      · have hp2 : ps.isEmpty = false := by
          cases hpp : ps.isEmpty
          · rfl
          · exact absurd hpp hp
        simp [contextPurchaseGuard, h1, h2, he, hp2, hfind, hp]

/-- Witness for C8 at concrete context states: an uninitialized context, a
loaded catalog with a missing and a present product, and an empty catalog
whose reload times out. -/
theorem purchase_precondition_guards_witness :
    contextPurchaseGuard
        { ctxInitialized := false, svcInitialized := false, products := [] }
        monthlySku (.ok []) =
      (.failed "IAP not initialized. Please wait for initialization to complete.",
       0)
  ∧ contextPurchaseGuard readyCtxState quarterlySku (.ok []) =
      (.failed "Product not available. Please try again later.", 0)
  ∧ contextPurchaseGuard readyCtxState monthlySku (.ok []) =
      (.requestInitiated, 0)
  ∧ (contextPurchaseGuard emptyCatalogCtxState monthlySku
        (.error "Product load timed out")).2 = 1
  ∧ (contextPurchaseGuard emptyCatalogCtxState monthlySku
        (.error "Product load timed out")).1 =
      .failed "Failed to load products. Please check your connection and try again." :=
  ⟨purchase_precondition_guards.1 _ monthlySku (.ok []) rfl,
   (purchase_precondition_guards.2.1 readyCtxState quarterlySku (.ok [])
      rfl rfl (by decide)).1 (by decide),
   (purchase_precondition_guards.2.1 readyCtxState monthlySku (.ok [])
      rfl rfl (by decide)).2 (by decide),
   (purchase_precondition_guards.2.2 emptyCatalogCtxState monthlySku
      (.error "Product load timed out") rfl rfl rfl).1,
   (purchase_precondition_guards.2.2 emptyCatalogCtxState monthlySku
      (.error "Product load timed out") rfl rfl rfl).2.1
     "Product load timed out" rfl⟩

end BlueFly
